import Mathlib

/-!
# Verification of the daytona unified data-access layer

Shallow embedding of the repository's data-access layer: the abstract
`DBConnection` contract (dbConnection.js), the embedded SQLite adapter
(sqlite3DBConnection.js), the two pooled relational adapters
(mysqlDBConnection.js, pgConnection.js) and the document-store adapter
(mongodbConnection.js).  Pure query-building code is translated to Lean
functions on association lists; the mutable lifecycle / transaction state of
each adapter becomes an explicit state record with operations returning
`Except`.
-/

namespace Daytona

/-- A scalar JavaScript value as it appears in rows and criteria.  The layer
only ever compares these for equality, so integers and strings suffice. -/
inductive JVal where
  | int (n : Int)
  | str (s : String)
deriving DecidableEq, Repr

/-- A row / document: an ordered mapping of column name to value (JS object
iteration order is the insertion order of the keys). -/
abbrev Row := List (String × JVal)

/-- A criteria mapping: field name to required value, AND of equalities. -/
abbrev Criteria := List (String × JVal)

/-- The polymorphic `idOrCriteria` argument: JavaScript dispatches on
`typeof idOrCriteria === "object"`, so the shape is either a scalar or an
object (mapping). -/
inductive JSArg where
  | scalar (v : JVal)
  | obj (m : List (String × JVal))
deriving DecidableEq, Repr

/-- JS property read on a row object (keys are unique in a JS object; the
first binding wins). -/
def rowGet (r : Row) (k : String) : Option JVal :=
  (r.find? (fun kv => kv.1 = k)).map (·.2)

/-- Semantics of the generated `WHERE k1 = ? AND k2 = ?` clause bound to the
criteria's values (equally, of a MongoDB equality filter document): the row
satisfies every equality predicate of the criteria. -/
def matchesRow (c : Criteria) (r : Row) : Bool :=
  c.all (fun kv => rowGet r kv.1 == some kv.2)

/-- Semantics of `SET k = v` (and of MongoDB `$set`): overwrite the named
field when present, append it otherwise. -/
def setField (r : Row) (k : String) (v : JVal) : Row :=
  if (r.find? (fun kv => kv.1 = k)).isSome then
    r.map (fun kv => if kv.1 = k then (kv.1, v) else kv)
  else r ++ [(k, v)]

/-- Apply every assignment of an updates mapping to a row. -/
def applySet (u : Row) (r : Row) : Row :=
  u.foldl (fun acc kv => setField acc kv.1 kv.2) r

/-- Errors surfaced by the embedded operations. `thrown` models
`throw new Error(msg)`; `nullCall m` models the TypeError raised when a
method `m` is invoked on a null driver handle (pool / db not created). -/
inductive JSError where
  | thrown (msg : String)
  | nullCall (method : String)
deriving DecidableEq, Repr

instance {ε α : Type} [DecidableEq ε] [DecidableEq α] : DecidableEq (Except ε α) :=
  fun a b =>
    match a, b with
    | .ok x, .ok y =>
        if h : x = y then .isTrue (by rw [h]) else .isFalse (by intro hh; cases hh; exact h rfl)
    | .error x, .error y =>
        if h : x = y then .isTrue (by rw [h]) else .isFalse (by intro hh; cases hh; exact h rfl)
    | .ok _, .error _ => .isFalse (by intro hh; cases hh)
    | .error _, .ok _ => .isFalse (by intro hh; cases hh)

/-- True when the operation failed (threw). -/
def isErr {α : Type} : Except JSError α → Bool
  | .error _ => true
  | .ok _ => false

/-! ## The abstract contract (dbConnection.js) -/

/-- The operation surface declared by `DBConnection` in dbConnection.js:
CRUD, schema and transaction operations, plus the relational `query` hook and
the MongoDB-specific `mongoCommand` hook. -/
inductive ContractOp where
  | insert | update | delete | findById | findBy | findAll | findOne | count
  | createTable | dropTable | createIndex | dropIndex
  | beginTransaction | commit | rollback
  | query | mongoCommand
deriving DecidableEq, Repr

/-- The JavaScript method name of each contract operation. -/
def ContractOp.jsName : ContractOp → String
  | .insert => "insert"
  | .update => "update"
  | .delete => "delete"
  | .findById => "findById"
  | .findBy => "findBy"
  | .findAll => "findAll"
  | .findOne => "findOne"
  | .count => "count"
  | .createTable => "createTable"
  | .dropTable => "dropTable"
  | .createIndex => "createIndex"
  | .dropIndex => "dropIndex"
  | .beginTransaction => "beginTransaction"
  | .commit => "commit"
  | .rollback => "rollback"
  | .query => "query"
  | .mongoCommand => "mongoCommand"

/-- dbConnection.js `_notImplemented(methodName)`: throws
`` `${className}.${methodName} is not implemented` ``. -/
def DBConnection.notImplementedCall (className methodName : String) : Except JSError Unit :=
  .error (.thrown (className ++ "." ++ methodName ++ " is not implemented"))

/-- The body of each stub method of `DBConnection`: every one calls
`this._notImplemented("<its own name>")` with the literal string written in
dbConnection.js. -/
def DBConnection.baseMethod (className : String) : ContractOp → Except JSError Unit
  | .query => DBConnection.notImplementedCall className "query"
  | .mongoCommand => DBConnection.notImplementedCall className "mongoCommand"
  | .createTable => DBConnection.notImplementedCall className "createTable"
  | .dropTable => DBConnection.notImplementedCall className "dropTable"
  | .createIndex => DBConnection.notImplementedCall className "createIndex"
  | .dropIndex => DBConnection.notImplementedCall className "dropIndex"
  | .insert => DBConnection.notImplementedCall className "insert"
  | .update => DBConnection.notImplementedCall className "update"
  | .delete => DBConnection.notImplementedCall className "delete"
  | .findById => DBConnection.notImplementedCall className "findById"
  | .findBy => DBConnection.notImplementedCall className "findBy"
  | .findAll => DBConnection.notImplementedCall className "findAll"
  | .findOne => DBConnection.notImplementedCall className "findOne"
  | .count => DBConnection.notImplementedCall className "count"
  | .beginTransaction => DBConnection.notImplementedCall className "beginTransaction"
  | .commit => DBConnection.notImplementedCall className "commit"
  | .rollback => DBConnection.notImplementedCall className "rollback"

/-- The `DBConnection` constructor: `new.target === DBConnection` aborts with
"DBConnection is abstract and must be subclassed."; a subclass construction
succeeds with `_connected = false`. -/
def DBConnection.construct (newTarget : String) : Except JSError Bool :=
  if newTarget = "DBConnection" then
    .error (.thrown "DBConnection is abstract and must be subclassed.")
  else
    .ok false

/-- The four concrete adapter classes of the repository. -/
inductive AdapterClass where
  | sqlite3 | mysql | postgres | mongodb
deriving DecidableEq, Repr

/-- Source `this.constructor.name` of each adapter class. -/
def AdapterClass.className : AdapterClass → String
  | .sqlite3 => "Sqlite3Connection"
  | .mysql => "MySQLDBConnection"
  | .postgres => "PostgresDBConnection"
  | .mongodb => "MongoDBConnection"

/-- Which contract operations each concrete adapter overrides, read off the
method lists of sqlite3DBConnection.js, mysqlDBConnection.js, pgConnection.js
and mongodbConnection.js: the three SQL adapters define every operation except
`mongoCommand`; the MongoDB adapter defines every operation except `query`. -/
def AdapterClass.overridesOp : AdapterClass → ContractOp → Bool
  | .sqlite3, .mongoCommand => false
  | .sqlite3, _ => true
  | .mysql, .mongoCommand => false
  | .mysql, _ => true
  | .postgres, .mongoCommand => false
  | .postgres, _ => true
  | .mongodb, .query => false
  | .mongodb, _ => true

/-! ## Base-class lifecycle (dbConnection.js `connect` / `disconnect`) -/

/-- The base-class lifecycle state: the `_connected` flag plus counters for
how many times the engine-specific `_connectInternal` / `_disconnectInternal`
routines have run (these create / release the underlying resource). -/
structure LifecycleState where
  connected : Bool
  connectInternalRuns : Nat
  disconnectInternalRuns : Nat
deriving DecidableEq, Repr

/-- dbConnection.js `connect()`: `if (this._connected) return;` then run
`_connectInternal()` and set `_connected = true`. -/
def DBConnection.connect (s : LifecycleState) : LifecycleState :=
  if s.connected then s
  else { s with connected := true, connectInternalRuns := s.connectInternalRuns + 1 }

/-- dbConnection.js `disconnect()`: `if (!this._connected) return;` then run
`_disconnectInternal()` and set `_connected = false`. -/
def DBConnection.disconnect (s : LifecycleState) : LifecycleState :=
  if s.connected then
    { s with connected := false, disconnectInternalRuns := s.disconnectInternalRuns + 1 }
  else s

/-! ## Embedded SQLite adapter state machine (sqlite3DBConnection.js) -/

/-- Mutable state of `Sqlite3Connection`: the base `_connected` flag, whether
`_db` holds an open better-sqlite3 handle (null otherwise), and the
`_inTransaction` boolean guard. -/
structure Sqlite3State where
  connected : Bool
  dbOpen : Bool
  inTransaction : Bool
deriving DecidableEq, Repr

namespace Sqlite3

/-- Freshly constructed `Sqlite3Connection`: `_db = null`,
`_inTransaction = false`, `_connected = false`. -/
def initialState : Sqlite3State := ⟨false, false, false⟩

/-- Source `connect()` as inherited: no-op when connected, otherwise run
`_connectInternal` (which opens the database handle). -/
def connectS (s : Sqlite3State) : Sqlite3State :=
  if s.connected then s else { s with connected := true, dbOpen := true }

/-- Source `disconnect()` as inherited: `_disconnectInternal` closes the handle and
sets `_db = null`; note it does not touch `_inTransaction`. -/
def disconnectS (s : Sqlite3State) : Sqlite3State :=
  if s.connected then { s with connected := false, dbOpen := false } else s

/-- Control flow of `query(sql, params)`: `this._db.prepare(sql)` — a
TypeError on the null handle when not connected, otherwise the statement
runs. -/
def queryS (s : Sqlite3State) : Except JSError Sqlite3State :=
  if s.dbOpen then .ok s else .error (.nullCall "prepare")

/-- Source `beginTransaction()`: `if (!this._inTransaction) { this._db.prepare("BEGIN").run(); this._inTransaction = true; }`
— note there is no else branch: when a transaction is already active the call
returns normally without doing anything. -/
def beginTransactionS (s : Sqlite3State) : Except JSError Sqlite3State :=
  if !s.inTransaction then
    if s.dbOpen then .ok { s with inTransaction := true }
    else .error (.nullCall "prepare")
  else .ok s

/-- Source `commit()`: `if (this._inTransaction) { this._db.prepare("COMMIT").run(); this._inTransaction = false; }`
— returns normally, doing nothing, when no transaction is active. -/
def commitS (s : Sqlite3State) : Except JSError Sqlite3State :=
  if s.inTransaction then
    if s.dbOpen then .ok { s with inTransaction := false }
    else .error (.nullCall "prepare")
  else .ok s

/-- Source `rollback()`: same guarded shape as `commit()`. -/
def rollbackS (s : Sqlite3State) : Except JSError Sqlite3State :=
  if s.inTransaction then
    if s.dbOpen then .ok { s with inTransaction := false }
    else .error (.nullCall "prepare")
  else .ok s

/-- Control path of every contract operation of `Sqlite3Connection`: all CRUD
and schema methods build a SQL string and funnel through `query` (`findOne`
via `findAll`); `mongoCommand` is not overridden and falls back to the base
stub. -/
def runOp (op : ContractOp) (s : Sqlite3State) : Except JSError Sqlite3State :=
  match op with
  | .beginTransaction => beginTransactionS s
  | .commit => commitS s
  | .rollback => rollbackS s
  | .mongoCommand =>
      (DBConnection.baseMethod "Sqlite3Connection" .mongoCommand).map (fun _ => s)
  | _ => queryS s

end Sqlite3

/-! ## Pooled MySQL adapter state machine (mysqlDBConnection.js) -/

/-- Mutable state of `MySQLDBConnection`: `_pool` (null until connect) and
`_connection`, the pooled client reserved while a transaction is active. -/
structure MySQLState where
  connected : Bool
  poolOpen : Bool
  txConnection : Bool
deriving DecidableEq, Repr

namespace MySQL

/-- Freshly constructed `MySQLDBConnection`. -/
def initialState : MySQLState := ⟨false, false, false⟩

/-- Source `connect()` as inherited: `_connectInternal` creates the pool. -/
def connectS (s : MySQLState) : MySQLState :=
  if s.connected then s else { s with connected := true, poolOpen := true }

/-- Source `query(sql, params)`: `const conn = this._connection || this._pool;
const [rows] = await conn.execute(...)` — a TypeError on null when neither
exists. -/
def queryS (s : MySQLState) : Except JSError MySQLState :=
  if s.txConnection then .ok s
  else if s.poolOpen then .ok s
  else .error (.nullCall "execute")

/-- Source `beginTransaction()`: throws "Transaction already in progress" when
`_connection` is set, otherwise checks out a pooled client
(`this._pool.getConnection()` — TypeError on a null pool). -/
def beginTransactionS (s : MySQLState) : Except JSError MySQLState :=
  if s.txConnection then .error (.thrown "Transaction already in progress")
  else if s.poolOpen then .ok { s with txConnection := true }
  else .error (.nullCall "getConnection")

/-- Source `commit()`: throws "No transaction in progress" when `_connection` is
null, otherwise commits, releases the client and clears `_connection`. -/
def commitS (s : MySQLState) : Except JSError MySQLState :=
  if !s.txConnection then .error (.thrown "No transaction in progress")
  else .ok { s with txConnection := false }

/-- Source `rollback()`: same guard as `commit()`. -/
def rollbackS (s : MySQLState) : Except JSError MySQLState :=
  if !s.txConnection then .error (.thrown "No transaction in progress")
  else .ok { s with txConnection := false }

/-- Control path of every contract operation of `MySQLDBConnection`: CRUD and
schema methods funnel through `query`; `mongoCommand` falls to the base
stub. -/
def runOp (op : ContractOp) (s : MySQLState) : Except JSError MySQLState :=
  match op with
  | .beginTransaction => beginTransactionS s
  | .commit => commitS s
  | .rollback => rollbackS s
  | .mongoCommand =>
      (DBConnection.baseMethod "MySQLDBConnection" .mongoCommand).map (fun _ => s)
  | _ => queryS s

end MySQL

/-! ## Pooled Postgres adapter state machine (pgConnection.js) -/

/-- Mutable state of `PostgresDBConnection`: `_pool` and
`_transactionClient`. -/
structure PostgresState where
  connected : Bool
  poolOpen : Bool
  txClient : Bool
deriving DecidableEq, Repr

namespace Postgres

/-- Freshly constructed `PostgresDBConnection`. -/
def initialState : PostgresState := ⟨false, false, false⟩

/-- Source `connect()` as inherited: `_connectInternal` creates the pool. -/
def connectS (s : PostgresState) : PostgresState :=
  if s.connected then s else { s with connected := true, poolOpen := true }

/-- Source `query(sql, params)`: uses `_transactionClient` when set, otherwise
`this._pool.query(...)` — a TypeError on a null pool. -/
def queryS (s : PostgresState) : Except JSError PostgresState :=
  if s.txClient then .ok s
  else if s.poolOpen then .ok s
  else .error (.nullCall "query")

/-- Source `beginTransaction()`: throws "Transaction already in progress" when
`_transactionClient` is set, otherwise `this._pool.connect()` checks out a
client (TypeError on a null pool). -/
def beginTransactionS (s : PostgresState) : Except JSError PostgresState :=
  if s.txClient then .error (.thrown "Transaction already in progress")
  else if s.poolOpen then .ok { s with txClient := true }
  else .error (.nullCall "connect")

/-- Source `commit()`: throws "No transaction in progress" when no client is held,
otherwise commits, releases the client and clears `_transactionClient`. -/
def commitS (s : PostgresState) : Except JSError PostgresState :=
  if !s.txClient then .error (.thrown "No transaction in progress")
  else .ok { s with txClient := false }

/-- Source `rollback()`: same guard as `commit()`. -/
def rollbackS (s : PostgresState) : Except JSError PostgresState :=
  if !s.txClient then .error (.thrown "No transaction in progress")
  else .ok { s with txClient := false }

/-- Control path of every contract operation of `PostgresDBConnection`. -/
def runOp (op : ContractOp) (s : PostgresState) : Except JSError PostgresState :=
  match op with
  | .beginTransaction => beginTransactionS s
  | .commit => commitS s
  | .rollback => rollbackS s
  | .mongoCommand =>
      (DBConnection.baseMethod "PostgresDBConnection" .mongoCommand).map (fun _ => s)
  | _ => queryS s

end Postgres

/-! ## Document adapter state machine (mongodbConnection.js) -/

/-- Mutable state of `MongoDBConnection`: the `_client` and `_db` handles
(both null until connect). -/
structure MongoState where
  connected : Bool
  clientOpen : Bool
  dbOpen : Bool
deriving DecidableEq, Repr

namespace Mongo

/-- Freshly constructed `MongoDBConnection`. -/
def initialState : MongoState := ⟨false, false, false⟩

/-- Source `connect()` as inherited: `_connectInternal` opens the client and db. -/
def connectS (s : MongoState) : MongoState :=
  if s.connected then s else { s with connected := true, clientOpen := true, dbOpen := true }

/-- Source `getCollection(table)`: `if (!this._db) throw new Error("Database not connected")`. -/
def getCollectionS (s : MongoState) : Except JSError Unit :=
  if s.dbOpen then .ok () else .error (.thrown "Database not connected")

/-- Control path of every contract operation of `MongoDBConnection`:
transactions always throw; `createTable` dereferences `this._db` directly
(TypeError on null rather than the guard message); `query` is not overridden
and falls to the base stub; every other operation goes through
`getCollection`. -/
def runOp (op : ContractOp) (s : MongoState) : Except JSError MongoState :=
  match op with
  | .beginTransaction =>
      .error (.thrown "MongoDB transactions not implemented in base class (requires session).")
  | .commit => .error (.thrown "MongoDB transactions not implemented in base class.")
  | .rollback => .error (.thrown "MongoDB transactions not implemented in base class.")
  | .createTable =>
      if s.dbOpen then .ok s else .error (.nullCall "createCollection")
  | .query => (DBConnection.baseMethod "MongoDBConnection" .query).map (fun _ => s)
  | .mongoCommand =>
      if s.dbOpen then .ok s else .error (.nullCall "command")
  | _ => (getCollectionS s).map (fun _ => s)

end Mongo

/-! ## Query options and JS truthiness -/

/-- The options object read by the relational `findAll` implementations; only
`limit` and `offset` are consulted (a `sort` entry is ignored by the SQL
adapters). An absent property is `none`. -/
structure SqlOptions where
  limit : Option Nat := none
  offset : Option Nat := none
deriving DecidableEq, Repr

/-- JS truthiness of a numeric option: `options.limit ? ... : ""` — both an
absent property (undefined) and the number 0 are falsy. -/
def truthy (v : Option Nat) : Bool := v.getD 0 ≠ 0

/-- Engine semantics of the generated `WHERE` clause over a table: keep the
rows satisfying every equality predicate. -/
def sqlFilter (c : Criteria) (tbl : List Row) : List Row :=
  tbl.filter (matchesRow c)

/-- Engine semantics of the generated `LIMIT x OFFSET y` clauses (emitted only
when the option is truthy): skip `offset` rows, then return at most `limit`
rows. -/
def applyLimitOffset (lim off : Option Nat) (rows : List Row) : List Row :=
  let afterOffset := if truthy off then rows.drop (off.getD 0) else rows
  if truthy lim then afterOffset.take (lim.getD 0) else afterOffset

/-- Engine semantics of `UPDATE ... SET <updates> WHERE <pred>` (no LIMIT is
ever emitted): apply the assignments to every matching row; also the list of
updated rows, which `RETURNING *` reports. -/
def sqlUpdateWhere (pred : Row → Bool) (u : Row) (tbl : List Row) : List Row × List Row :=
  (tbl.map (fun r => if pred r then applySet u r else r),
   (tbl.filter pred).map (applySet u))

/-- Engine semantics of `DELETE FROM ... WHERE <pred>` (no LIMIT): remove
every matching row; also the affected-row count the driver reports. -/
def sqlDeleteWhere (pred : Row → Bool) (tbl : List Row) : List Row × Nat :=
  (tbl.filter (fun r => !pred r), tbl.countP pred)

/-- The value an adapter's `update` / `delete` hands back to the caller:
a bare integer count, an array of rows, or the better-sqlite3 run-info object
(whose `changes` property holds the count). -/
inductive QueryResult where
  | count (n : Nat)
  | rows (rs : List Row)
  | runInfo (changes : Nat)
deriving DecidableEq, Repr

/-- Whether the result is a bare integer count. -/
def QueryResult.isCount : QueryResult → Bool
  | .count _ => true
  | _ => false

/-! ## Embedded SQLite adapter: query building and semantics -/

namespace Sqlite3

/-- sqlite3DBConnection.js `update(table, id, updates)`: the second argument
is named `id` and is never shape-inspected — the statement is always
`UPDATE ${table} SET ${setClause} WHERE id = ?` and the argument itself
(whatever it is) is appended to the bound values. -/
def updateSql (table : String) (idOrCriteria : JSArg) (updates : Row) :
    String × List JSArg :=
  let keys := updates.map (·.1)
  let setClause := String.intercalate ", " (keys.map (fun k => k ++ " = ?"))
  let values := updates.map (fun kv => JSArg.scalar kv.2) ++ [idOrCriteria]
  ("UPDATE " ++ table ++ " SET " ++ setClause ++ " WHERE id = ?", values)

/-- sqlite3DBConnection.js `delete(table, id)`:
`DELETE FROM ${table} WHERE id = ?` with the argument bound as the id. -/
def deleteSql (table : String) (idOrCriteria : JSArg) : String × List JSArg :=
  ("DELETE FROM " ++ table ++ " WHERE id = ?", [idOrCriteria])

/-- sqlite3DBConnection.js `findAll`: `WHERE` from the criteria (AND of
`k = ?`), `LIMIT` / `OFFSET` emitted only when the option is truthy, joined as
`SELECT * FROM ${table} ${where} ${limit} ${offset}`. -/
def findAllSql (table : String) (criteria : Criteria) (options : SqlOptions) :
    String × List JVal :=
  let whereClauses := criteria.map (fun kv => kv.1 ++ " = ?")
  let values := criteria.map (·.2)
  let w := if whereClauses.length ≠ 0 then
      "WHERE " ++ String.intercalate " AND " whereClauses else ""
  let l := if truthy options.limit then "LIMIT " ++ toString (options.limit.getD 0) else ""
  let o := if truthy options.offset then "OFFSET " ++ toString (options.offset.getD 0) else ""
  ("SELECT * FROM " ++ table ++ " " ++ w ++ " " ++ l ++ " " ++ o, values)

/-- Result-set semantics of `findAll`: filter by the criteria, then apply the
emitted LIMIT/OFFSET clauses. -/
def findAllExec (tbl : List Row) (criteria : Criteria) (options : SqlOptions) : List Row :=
  applyLimitOffset options.limit options.offset (sqlFilter criteria tbl)

/-- sqlite3DBConnection.js `findOne`: `this.findAll(table, criteria,
{ ...options, limit: 1 })` then `rows[0] || null`. -/
def findOneExec (tbl : List Row) (criteria : Criteria) (options : SqlOptions) : Option Row :=
  (findAllExec tbl criteria { options with limit := some 1 }).head?

/-- Result semantics of `count`: `SELECT COUNT(*)` with the same `WHERE`
construction as `findAll` and no LIMIT/OFFSET. -/
def countExec (tbl : List Row) (criteria : Criteria) : Nat :=
  (sqlFilter criteria tbl).length

/-- Value returned by `update`: the better-sqlite3 run-info object produced by
`stmt.run` (a `{ changes, lastInsertRowid }` object, not a bare integer); its
`changes` field counts the rows the `WHERE id = ?` statement touched. -/
def updateResult (tbl : List Row) (id : JVal) (updates : Row) : QueryResult :=
  .runInfo (sqlUpdateWhere (matchesRow [("id", id)]) updates tbl).2.length

/-- Value returned by `delete`: likewise the run-info object. -/
def deleteResult (tbl : List Row) (id : JVal) : QueryResult :=
  .runInfo (sqlDeleteWhere (matchesRow [("id", id)]) tbl).2

end Sqlite3

/-! ## Pooled Postgres adapter: query building and semantics -/

namespace Postgres

/-- The criteria loop shared by pgConnection.js `update` (offset starting at
`keys.length`, pushing `` `${k} = $${++offset}` ``) and `delete` (indexing
`$${idx + 1}` from 0): clause strings with numbered placeholders and the
collected filter parameters. -/
def whereLoop : Nat → List (String × JVal) → List String × List JVal
  | _, [] => ([], [])
  | off, kv :: rest =>
      let tail := whereLoop (off + 1) rest
      ((kv.1 ++ " = $" ++ toString (off + 1)) :: tail.1, kv.2 :: tail.2)

/-- The `filterSql` / `filterParams` pair built inside pgConnection.js
`update`: an object argument is AND-combined with placeholders continuing
after the SET parameters (`++offset` starting at `keys.length`); a scalar
becomes `WHERE id = $${keys.length + 1}`. -/
def updateFilter (numSetParams : Nat) : JSArg → String × List JVal
  | .obj c =>
      let wl := whereLoop numSetParams c
      ("WHERE " ++ String.intercalate " AND " wl.1, wl.2)
  | .scalar v => ("WHERE id = $" ++ toString (numSetParams + 1), [v])

/-- pgConnection.js `update(table, idOrCriteria, updates)`:
`SET k = $1..$n` over the updates, the filter of `updateFilter`, and
`RETURNING *`. -/
def updateSql (table : String) (idOrCriteria : JSArg) (updates : Row) :
    String × List JVal :=
  let keys := updates.map (·.1)
  let setClause := String.intercalate ", " (whereLoop 0 updates).1
  let values := updates.map (·.2)
  let filter := updateFilter keys.length idOrCriteria
  ("UPDATE " ++ table ++ " SET " ++ setClause ++ " " ++ filter.1 ++ " RETURNING *",
   values ++ filter.2)

/-- The WHERE fragment and parameters built inside pgConnection.js `delete`:
an object argument is AND-combined with placeholders `$1..`; a scalar becomes
`WHERE id = $1`. -/
def deleteFilter : JSArg → String × List JVal
  | .obj c =>
      let wl := whereLoop 0 c
      ("WHERE " ++ String.intercalate " AND " wl.1, wl.2)
  | .scalar v => ("WHERE id = $1", [v])

/-- pgConnection.js `delete(table, idOrCriteria)`. -/
def deleteSql (table : String) (idOrCriteria : JSArg) : String × List JVal :=
  let f := deleteFilter idOrCriteria
  ("DELETE FROM " ++ table ++ " " ++ f.1, f.2)

/-- pgConnection.js `findAll`: AND-combined `WHERE` with `$1..`, LIMIT/OFFSET
emitted only when truthy. -/
def findAllSql (table : String) (criteria : Criteria) (options : SqlOptions) :
    String × List JVal :=
  let wl := whereLoop 0 criteria
  let whereClause := if wl.1.length ≠ 0 then
      "WHERE " ++ String.intercalate " AND " wl.1 else ""
  let limitClause := if truthy options.limit then
      "LIMIT " ++ toString (options.limit.getD 0) else ""
  let offsetClause := if truthy options.offset then
      "OFFSET " ++ toString (options.offset.getD 0) else ""
  ("SELECT * FROM " ++ table ++ " " ++ whereClause ++ " " ++ limitClause ++ " " ++ offsetClause,
   wl.2)

/-- The WHERE predicate denoted by the filter `update`/`delete` build: AND of
equalities for an object, equality on the `id` column for a scalar. -/
def wherePred (idOrCriteria : JSArg) : Row → Bool
  | r => match idOrCriteria with
    | .obj c => matchesRow c r
    | .scalar v => matchesRow [("id", v)] r

/-- Result-set semantics of `findAll`. -/
def findAllExec (tbl : List Row) (criteria : Criteria) (options : SqlOptions) : List Row :=
  applyLimitOffset options.limit options.offset (sqlFilter criteria tbl)

/-- pgConnection.js `findOne`: `this.findAll(table, criteria, { ...options,
limit: 1 })` then `rows[0] || null`. -/
def findOneExec (tbl : List Row) (criteria : Criteria) (options : SqlOptions) : Option Row :=
  (findAllExec tbl criteria { options with limit := some 1 }).head?

/-- Result semantics of `count`: `SELECT COUNT(*)::int` with the same WHERE
construction and no LIMIT/OFFSET. -/
def countExec (tbl : List Row) (criteria : Criteria) : Nat :=
  (sqlFilter criteria tbl).length

/-- Table-effect semantics of `update`: the generated UPDATE (no LIMIT)
applied to a table, with the `RETURNING *` rows. -/
def updateExec (tbl : List Row) (idOrCriteria : JSArg) (updates : Row) :
    List Row × List Row :=
  sqlUpdateWhere (wherePred idOrCriteria) updates tbl

/-- Value `update` returns to the caller: `res.rows` — the array of rows the
`RETURNING *` clause produced, not a count. -/
def updateResult (tbl : List Row) (idOrCriteria : JSArg) (updates : Row) : QueryResult :=
  .rows (updateExec tbl idOrCriteria updates).2

/-- Table-effect semantics of `delete`. -/
def deleteExec (tbl : List Row) (idOrCriteria : JSArg) : List Row × Nat :=
  sqlDeleteWhere (wherePred idOrCriteria) tbl

/-- Value `delete` returns to the caller: `res.rowCount`. -/
def deleteResult (tbl : List Row) (idOrCriteria : JSArg) : QueryResult :=
  .count (deleteExec tbl idOrCriteria).2

end Postgres

/-! ## Pooled MySQL adapter: query building and semantics -/

namespace MySQL

/-- The `whereClause` / `filterValues` pair built inside mysqlDBConnection.js
`update`: an object argument is AND-combined with backtick quoting and `?`
placeholders; a scalar becomes `` WHERE `id` = ? ``. -/
def updateFilter : JSArg → String × List JVal
  | .obj c =>
      ("WHERE " ++ String.intercalate " AND "
          (c.map (fun kv => "`" ++ kv.1 ++ "` = ?")),
       c.map (·.2))
  | .scalar v => ("WHERE `id` = ?", [v])

/-- mysqlDBConnection.js `update(table, idOrCriteria, updates)`: backtick
quoting, `?` placeholders, filter of `updateFilter`. -/
def updateSql (table : String) (idOrCriteria : JSArg) (updates : Row) :
    String × List JVal :=
  let keys := updates.map (·.1)
  let setClause := String.intercalate ", " (keys.map (fun k => "`" ++ k ++ "` = ?"))
  let values := updates.map (·.2)
  let filter := updateFilter idOrCriteria
  ("UPDATE `" ++ table ++ "` SET " ++ setClause ++ " " ++ filter.1, values ++ filter.2)

/-- The WHERE fragment and values built inside mysqlDBConnection.js `delete`:
an object argument is AND-combined with backtick quoting; the scalar branch
emits `WHERE id = ?` with the id column left unquoted. -/
def deleteFilter : JSArg → String × List JVal
  | .obj c =>
      ("WHERE " ++ String.intercalate " AND "
          (c.map (fun kv => "`" ++ kv.1 ++ "` = ?")),
       c.map (·.2))
  | .scalar v => ("WHERE id = ?", [v])

/-- mysqlDBConnection.js `delete(table, idOrCriteria)`. -/
def deleteSql (table : String) (idOrCriteria : JSArg) : String × List JVal :=
  let f := deleteFilter idOrCriteria
  ("DELETE FROM `" ++ table ++ "` " ++ f.1, f.2)

/-- mysqlDBConnection.js `findAll`: AND-combined WHERE with `?` placeholders,
LIMIT/OFFSET emitted only when truthy. -/
def findAllSql (table : String) (criteria : Criteria) (options : SqlOptions) :
    String × List JVal :=
  let whereParts := criteria.map (fun kv => "`" ++ kv.1 ++ "` = ?")
  let values := criteria.map (·.2)
  let whereClause := if whereParts.length ≠ 0 then
      "WHERE " ++ String.intercalate " AND " whereParts else ""
  let l := if truthy options.limit then "LIMIT " ++ toString (options.limit.getD 0) else ""
  let o := if truthy options.offset then "OFFSET " ++ toString (options.offset.getD 0) else ""
  ("SELECT * FROM `" ++ table ++ "` " ++ whereClause ++ " " ++ l ++ " " ++ o, values)

/-- The WHERE predicate denoted by the filter `update`/`delete` build. -/
def wherePred (idOrCriteria : JSArg) : Row → Bool
  | r => match idOrCriteria with
    | .obj c => matchesRow c r
    | .scalar v => matchesRow [("id", v)] r

/-- Result-set semantics of `findAll`. -/
def findAllExec (tbl : List Row) (criteria : Criteria) (options : SqlOptions) : List Row :=
  applyLimitOffset options.limit options.offset (sqlFilter criteria tbl)

/-- mysqlDBConnection.js `findOne`: `this.findAll(table, criteria,
{ ...options, limit: 1 })` then `rows[0] || null`. -/
def findOneExec (tbl : List Row) (criteria : Criteria) (options : SqlOptions) : Option Row :=
  (findAllExec tbl criteria { options with limit := some 1 }).head?

/-- Result semantics of `count`. -/
def countExec (tbl : List Row) (criteria : Criteria) : Nat :=
  (sqlFilter criteria tbl).length

/-- Table-effect semantics of `update` (the generated UPDATE has no LIMIT). -/
def updateExec (tbl : List Row) (idOrCriteria : JSArg) (updates : Row) :
    List Row × List Row :=
  sqlUpdateWhere (wherePred idOrCriteria) updates tbl

/-- Value `update` returns: `result.affectedRows`, the count of rows the
statement affected. -/
def updateResult (tbl : List Row) (idOrCriteria : JSArg) (updates : Row) : QueryResult :=
  .count (updateExec tbl idOrCriteria updates).2.length

/-- Table-effect semantics of `delete`. -/
def deleteExec (tbl : List Row) (idOrCriteria : JSArg) : List Row × Nat :=
  sqlDeleteWhere (wherePred idOrCriteria) tbl

/-- Value `delete` returns: `result.affectedRows`. -/
def deleteResult (tbl : List Row) (idOrCriteria : JSArg) : QueryResult :=
  .count (deleteExec tbl idOrCriteria).2

end MySQL

/-! ## Document adapter: filter building and semantics -/

/-- The options object read by the MongoDB `findAll` implementation:
`limit`, `skip` and `sort` (a mapping of field to direction, 1 ascending,
-1 descending). -/
structure MongoOptions where
  limit : Option Nat := none
  skip : Option Nat := none
  sort : Option (List (String × Int)) := none
deriving DecidableEq, Repr

/-- BSON comparison on the scalar values of the model: numbers sort before
strings, numbers by value, strings lexicographically. -/
def jvalLtB : JVal → JVal → Bool
  | .int a, .int b => a < b
  | .int _, .str _ => true
  | .str _, .int _ => false
  | .str a, .str b => a < b

/-- Comparison lifted to a possibly missing field (a missing field sorts
before every present value). -/
def optJvalLtB : Option JVal → Option JVal → Bool
  | none, none => false
  | none, some _ => true
  | some _, none => false
  | some a, some b => jvalLtB a b

/-- Lexicographic document comparison along a sort specification, honouring
each key's direction. -/
def docLtBySpec (spec : List (String × Int)) (d1 d2 : Row) : Bool :=
  match spec with
  | [] => false
  | (k, dir) :: rest =>
      let a := rowGet d1 k
      let b := rowGet d2 k
      if a = b then docLtBySpec rest d1 d2
      else if dir < 0 then optJvalLtB b a else optJvalLtB a b

/-- Stable insertion into a sorted list (equal elements keep their original
relative order). -/
def insertSorted (lt : Row → Row → Bool) (x : Row) : List Row → List Row
  | [] => [x]
  | y :: ys => if lt y x then y :: insertSorted lt x ys else x :: y :: ys

/-- Stable sort by a comparison. -/
def sortDocs (lt : Row → Row → Bool) (docs : List Row) : List Row :=
  docs.foldr (insertSorted lt) []

namespace Mongo

/-- mongodbConnection.js `_buildFilter(idOrCriteria)`: a scalar is coerced to
an equality filter on `_id` (the `ObjectId` wrapping is modelled as the
identity on the scalar); a mapping is used as-is as the native filter
document. -/
def buildFilter : JSArg → Criteria
  | .scalar v => [("_id", v)]
  | .obj c => c

/-- Driver cursor semantics shared by `find` and `findOne`: apply the sort
specification when present, then skip. (`cursor.sort` / `cursor.skip` apply
in this order regardless of call order.) -/
def applySortSkip (options : MongoOptions) (docs : List Row) : List Row :=
  let sorted := match options.sort with
    | some sp => sortDocs (docLtBySpec sp) docs
    | none => docs
  if truthy options.skip then sorted.drop (options.skip.getD 0) else sorted

/-- mongodbConnection.js `findAll`: `collection.find(criteria)` with
`cursor.limit` / `cursor.skip` / `cursor.sort` applied only when the option
is truthy, then `toArray()`. -/
def findAllExec (docs : List Row) (criteria : Criteria) (options : MongoOptions) :
    List Row :=
  let base := applySortSkip options (docs.filter (matchesRow criteria))
  if truthy options.limit then base.take (options.limit.getD 0) else base

/-- mongodbConnection.js `findOne`: `collection.findOne(criteria, options)` —
driver semantics: the first matching document after sort and skip, or null. -/
def findOneExec (docs : List Row) (criteria : Criteria) (options : MongoOptions) :
    Option Row :=
  (applySortSkip options (docs.filter (matchesRow criteria))).head?

/-- mongodbConnection.js `count`: `collection.countDocuments(criteria)`. -/
def countExec (docs : List Row) (criteria : Criteria) : Nat :=
  (docs.filter (matchesRow criteria)).length

/-- Driver semantics of `collection.updateOne(filter, { $set: updates })`:
apply the assignments to the first matching document only; the second
component is the reported `modifiedCount`. -/
def updateFirst (p : Row → Bool) (u : Row) : List Row → List Row × Nat
  | [] => ([], 0)
  | d :: ds =>
      if p d then (applySet u d :: ds, 1)
      else
        let rest := updateFirst p u ds
        (d :: rest.1, rest.2)

/-- Driver semantics of `collection.deleteOne(filter)`: remove the first
matching document only; the second component is the reported
`deletedCount`. -/
def deleteFirst (p : Row → Bool) : List Row → List Row × Nat
  | [] => ([], 0)
  | d :: ds =>
      if p d then (ds, 1)
      else
        let rest := deleteFirst p ds
        (d :: rest.1, rest.2)

/-- Collection-effect semantics of `update`: `_buildFilter` then
`updateOne`. -/
def updateExec (docs : List Row) (idOrCriteria : JSArg) (updates : Row) :
    List Row × Nat :=
  updateFirst (matchesRow (buildFilter idOrCriteria)) updates docs

/-- Value `update` returns: `result.modifiedCount`. -/
def updateResult (docs : List Row) (idOrCriteria : JSArg) (updates : Row) : QueryResult :=
  .count (updateExec docs idOrCriteria updates).2

/-- Collection-effect semantics of `delete`: `_buildFilter` then
`deleteOne`. -/
def deleteExec (docs : List Row) (idOrCriteria : JSArg) : List Row × Nat :=
  deleteFirst (matchesRow (buildFilter idOrCriteria)) docs

/-- Value `delete` returns: `result.deletedCount`. -/
def deleteResult (docs : List Row) (idOrCriteria : JSArg) : QueryResult :=
  .count (deleteExec docs idOrCriteria).2

end Mongo

/-! ## Spec-side description of idOrCriteria resolution (for refinement) -/

/-- Modelled from the spec (§4.2): the AND-combined WHERE clause, "one
equality predicate per key", each clause produced by the engine's placeholder
and quoting rule `mkClause`, with placeholder positions counted from
`firstIdx`. -/
def specAndClauses (mkClause : String → Nat → String) :
    Nat → List (String × JVal) → List String
  | _, [] => []
  | i, kv :: rest => mkClause kv.1 i :: specAndClauses mkClause (i + 1) rest

/-- Modelled from the spec (§4.2): "a scalar is treated as equality on the
primary-key column named `id`; a mapping is AND-combined into the WHERE
clause", parameterized by the engine's clause rule. -/
def specResolveIdOrCriteria (mkClause : String → Nat → String) (firstIdx : Nat) :
    JSArg → String × List JVal
  | .scalar v => ("WHERE " ++ mkClause "id" firstIdx, [v])
  | .obj c =>
      ("WHERE " ++ String.intercalate " AND " (specAndClauses mkClause firstIdx c),
       c.map (·.2))

/-- Postgres clause rule: unquoted identifier, positionally numbered
placeholder (the clause at position `i` uses `$(i+1)`). -/
def pgClause (k : String) (i : Nat) : String := k ++ " = $" ++ toString (i + 1)

/-- MySQL clause rule: backtick-quoted identifier, fixed `?` placeholder. -/
def mysqlClause (k : String) (_ : Nat) : String := "`" ++ k ++ "` = ?"

/-! ## Helper lemmas -/

theorem whereLoop_eq_spec (c : List (String × JVal)) :
    ∀ off, Postgres.whereLoop off c = (specAndClauses pgClause off c, c.map (·.2)) := by
  induction c with
  | nil => intro off; rfl
  | cons kv rest ih =>
      intro off
      simp [Postgres.whereLoop, specAndClauses, ih (off + 1), pgClause]

theorem specAndClauses_mysql (c : List (String × JVal)) (i : Nat) :
    specAndClauses mysqlClause i c = c.map (fun kv => "`" ++ kv.1 ++ "` = ?") := by
  induction c generalizing i with
  | nil => rfl
  | cons kv rest ih => simp [specAndClauses, mysqlClause, ih]

theorem head?_take_one {α : Type} (l : List α) : (l.take 1).head? = l.head? := by
  cases l <;> rfl

theorem countP_filter_not (p : Row → Bool) (l : List Row) :
    (l.filter (fun r => !p r)).countP p = 0 := by
  induction l with
  | nil => rfl
  | cons d ds ih =>
      by_cases h : p d = true
      · simp [List.filter, h, ih]
      · simp only [Bool.not_eq_true] at h
        simp [List.filter, h, List.countP_cons, ih]

theorem updateFirst_count_le_one (p : Row → Bool) (u : Row) (l : List Row) :
    (Mongo.updateFirst p u l).2 ≤ 1 := by
  induction l with
  | nil => simp [Mongo.updateFirst]
  | cons d ds ih =>
      by_cases h : p d = true
      · simp [Mongo.updateFirst, h]
      · simp only [Bool.not_eq_true] at h
        simpa [Mongo.updateFirst, h] using ih

theorem deleteFirst_count_le_one (p : Row → Bool) (l : List Row) :
    (Mongo.deleteFirst p l).2 ≤ 1 := by
  induction l with
  | nil => simp [Mongo.deleteFirst]
  | cons d ds ih =>
      by_cases h : p d = true
      · simp [Mongo.deleteFirst, h]
      · simp only [Bool.not_eq_true] at h
        simpa [Mongo.deleteFirst, h] using ih

/-! ## Claim theorems -/

/-- C9: `connect()` while already Connected and `disconnect()` while already
Disconnected are no-ops; calling `connect()` twice from Disconnected leaves
the adapter Connected having run the internal connection routine exactly
once, and in general `connect` is idempotent and runs `_connectInternal` at
most once per call. -/
theorem connectDisconnectIdempotent :
    (∀ (a b : Nat), DBConnection.connect ⟨true, a, b⟩ = ⟨true, a, b⟩) ∧
    (∀ (a b : Nat), DBConnection.disconnect ⟨false, a, b⟩ = ⟨false, a, b⟩) ∧
    (∀ (a b : Nat),
      DBConnection.connect (DBConnection.connect ⟨false, a, b⟩) = ⟨true, a + 1, b⟩) ∧
    (∀ (s : LifecycleState),
      DBConnection.connect (DBConnection.connect s) = DBConnection.connect s) ∧
    (∀ (s : LifecycleState),
      (DBConnection.connect s).connectInternalRuns ≤ s.connectInternalRuns + 1) := by
  refine ⟨fun a b => rfl, fun a b => rfl, fun a b => rfl, ?_, ?_⟩
  · intro s
    by_cases h : s.connected <;> simp [DBConnection.connect, h]
  · intro s
    by_cases h : s.connected <;> simp [DBConnection.connect, h]

/-- C8: for every engine, `count(table, criteria)` equals the length of the
array `findAll(table, criteria)` returns when called with no limit/offset
options; the count queries take no LIMIT/OFFSET at all, so the result is
independent of them. -/
theorem countMatchesFindAllLength :
    (∀ (tbl : List Row) (c : Criteria),
      Sqlite3.countExec tbl c = (Sqlite3.findAllExec tbl c {}).length) ∧
    (∀ (tbl : List Row) (c : Criteria),
      Postgres.countExec tbl c = (Postgres.findAllExec tbl c {}).length) ∧
    (∀ (tbl : List Row) (c : Criteria),
      MySQL.countExec tbl c = (MySQL.findAllExec tbl c {}).length) ∧
    (∀ (docs : List Row) (c : Criteria),
      Mongo.countExec docs c = (Mongo.findAllExec docs c {}).length) :=
  ⟨fun _ _ => rfl, fun _ _ => rfl, fun _ _ => rfl, fun _ _ => rfl⟩

/-- C10: a `limit: 0` (or `offset: 0` / `skip: 0`) option is treated exactly
like an absent option, because the clause is emitted (or the cursor method
called) only when the value is truthy: `findAll` with `limit: 0` returns all
matching rows, and the generated SQL text is unchanged. -/
theorem falsyLimitOffsetOmitted :
    (∀ (tbl : List Row) (c : Criteria),
      Sqlite3.findAllExec tbl c { limit := some 0 } = Sqlite3.findAllExec tbl c {} ∧
      Sqlite3.findAllExec tbl c { offset := some 0 } = Sqlite3.findAllExec tbl c {} ∧
      Sqlite3.findAllExec tbl c { limit := some 0 } = sqlFilter c tbl) ∧
    (∀ (t : String) (c : Criteria),
      Sqlite3.findAllSql t c { limit := some 0 } = Sqlite3.findAllSql t c {} ∧
      Sqlite3.findAllSql t c { offset := some 0 } = Sqlite3.findAllSql t c {}) ∧
    (∀ (tbl : List Row) (c : Criteria),
      Postgres.findAllExec tbl c { limit := some 0 } = Postgres.findAllExec tbl c {} ∧
      Postgres.findAllExec tbl c { offset := some 0 } = Postgres.findAllExec tbl c {} ∧
      Postgres.findAllExec tbl c { limit := some 0 } = sqlFilter c tbl) ∧
    (∀ (t : String) (c : Criteria),
      Postgres.findAllSql t c { limit := some 0 } = Postgres.findAllSql t c {}) ∧
    (∀ (tbl : List Row) (c : Criteria),
      MySQL.findAllExec tbl c { limit := some 0 } = MySQL.findAllExec tbl c {} ∧
      MySQL.findAllExec tbl c { offset := some 0 } = MySQL.findAllExec tbl c {} ∧
      MySQL.findAllExec tbl c { limit := some 0 } = sqlFilter c tbl) ∧
    (∀ (t : String) (c : Criteria),
      MySQL.findAllSql t c { limit := some 0 } = MySQL.findAllSql t c {}) ∧
    (∀ (docs : List Row) (c : Criteria),
      Mongo.findAllExec docs c { limit := some 0 } = Mongo.findAllExec docs c {} ∧
      Mongo.findAllExec docs c { skip := some 0 } = Mongo.findAllExec docs c {} ∧
      Mongo.findAllExec docs c { limit := some 0 } = docs.filter (matchesRow c)) :=
  ⟨fun _ _ => ⟨rfl, rfl, rfl⟩, fun _ _ => ⟨rfl, rfl⟩,
   fun _ _ => ⟨rfl, rfl, rfl⟩, fun _ _ => rfl,
   fun _ _ => ⟨rfl, rfl, rfl⟩, fun _ _ => rfl,
   fun _ _ => ⟨rfl, rfl, rfl⟩⟩

/-- C7: for every adapter, criteria and options, `findOne` returns exactly the
first row of `findAll` run with the limit option forced to 1 (the head of the
result array, none/null when the result set is empty). -/
theorem findOneIsFindAllLimitOne :
    (∀ (tbl : List Row) (c : Criteria) (o : SqlOptions),
      Sqlite3.findOneExec tbl c o =
        (Sqlite3.findAllExec tbl c { o with limit := some 1 }).head?) ∧
    (∀ (tbl : List Row) (c : Criteria) (o : SqlOptions),
      Postgres.findOneExec tbl c o =
        (Postgres.findAllExec tbl c { o with limit := some 1 }).head?) ∧
    (∀ (tbl : List Row) (c : Criteria) (o : SqlOptions),
      MySQL.findOneExec tbl c o =
        (MySQL.findAllExec tbl c { o with limit := some 1 }).head?) ∧
    (∀ (docs : List Row) (c : Criteria) (o : MongoOptions),
      Mongo.findOneExec docs c o =
        (Mongo.findAllExec docs c { o with limit := some 1 }).head?) := by
  refine ⟨fun _ _ _ => rfl, fun _ _ _ => rfl, fun _ _ _ => rfl, ?_⟩
  intro docs c o
  show (Mongo.applySortSkip o (docs.filter (matchesRow c))).head? =
    ((Mongo.applySortSkip o (docs.filter (matchesRow c))).take 1).head?
  exact (head?_take_one _).symm

/-- C2: constructing `DBConnection` directly always fails with
"DBConnection is abstract and must be subclassed.", and every contract
operation that a concrete adapter does not override falls back to the base
stub, which fails with the message "ClassName.methodName is not implemented"
naming the concrete class and the operation — never a silent no-op. -/
theorem contractViolationOnUnoverridden :
    DBConnection.construct "DBConnection" =
      .error (.thrown "DBConnection is abstract and must be subclassed.") ∧
    ∀ (c : AdapterClass) (op : ContractOp), c.overridesOp op = false →
      DBConnection.baseMethod c.className op =
        .error (.thrown (c.className ++ "." ++ op.jsName ++ " is not implemented")) := by
  refine ⟨rfl, ?_⟩
  intro c op _h
  cases c <;> cases op <;> rfl

/-- Witness for C2: the MongoDB adapter does not override `query`, and
invoking `query` on it fails with the contract-violation message. -/
theorem contractViolationOnUnoverriddenWitness :
    AdapterClass.mongodb.overridesOp ContractOp.query = false ∧
    DBConnection.baseMethod AdapterClass.mongodb.className ContractOp.query =
      .error (.thrown "MongoDBConnection.query is not implemented") :=
  ⟨rfl, contractViolationOnUnoverridden.2 AdapterClass.mongodb ContractOp.query rfl⟩

/-- C1 counterexample: on the embedded SQLite adapter, `commit()` invoked on a
connected adapter with no Active transaction returns normally and leaves the
state unchanged — a silent no-op instead of the claimed failure with
"no transaction in progress". -/
theorem sqlite3CommitNoTransactionSilentlyNoops :
    Sqlite3.commitS ⟨true, true, false⟩ = .ok ⟨true, true, false⟩ := rfl

/-- C1 amended: the pooled adapters (MySQL, Postgres) fail a double
`beginTransaction()` with "Transaction already in progress" and a
`commit()`/`rollback()` without an Active transaction with "No transaction in
progress"; the embedded SQLite adapter silently no-ops in all three of those
states; the MongoDB adapter unconditionally fails all three transaction calls
with a transactions-not-implemented error. -/
theorem transactionGuardsPerAdapter :
    (∀ (c p : Bool), MySQL.beginTransactionS ⟨c, p, true⟩ =
        .error (.thrown "Transaction already in progress")) ∧
    (∀ (c p : Bool), MySQL.commitS ⟨c, p, false⟩ =
        .error (.thrown "No transaction in progress")) ∧
    (∀ (c p : Bool), MySQL.rollbackS ⟨c, p, false⟩ =
        .error (.thrown "No transaction in progress")) ∧
    (∀ (c p : Bool), Postgres.beginTransactionS ⟨c, p, true⟩ =
        .error (.thrown "Transaction already in progress")) ∧
    (∀ (c p : Bool), Postgres.commitS ⟨c, p, false⟩ =
        .error (.thrown "No transaction in progress")) ∧
    (∀ (c p : Bool), Postgres.rollbackS ⟨c, p, false⟩ =
        .error (.thrown "No transaction in progress")) ∧
    (∀ (c d : Bool), Sqlite3.beginTransactionS ⟨c, d, true⟩ = .ok ⟨c, d, true⟩) ∧
    (∀ (c d : Bool), Sqlite3.commitS ⟨c, d, false⟩ = .ok ⟨c, d, false⟩) ∧
    (∀ (c d : Bool), Sqlite3.rollbackS ⟨c, d, false⟩ = .ok ⟨c, d, false⟩) ∧
    (∀ (s : MongoState),
      Mongo.runOp .beginTransaction s =
        .error (.thrown
          "MongoDB transactions not implemented in base class (requires session).") ∧
      Mongo.runOp .commit s =
        .error (.thrown "MongoDB transactions not implemented in base class.") ∧
      Mongo.runOp .rollback s =
        .error (.thrown "MongoDB transactions not implemented in base class.")) := by
  refine ⟨fun _ _ => rfl, fun _ _ => rfl, fun _ _ => rfl, fun _ _ => rfl,
    fun _ _ => rfl, fun _ _ => rfl, fun _ _ => rfl, fun _ _ => rfl, fun _ _ => rfl,
    fun s => ⟨rfl, rfl, rfl⟩⟩

/-- C3 counterexample: on the embedded SQLite adapter, `commit()` invoked
before `connect()` (in the freshly constructed state) does not fail at all —
it returns normally — so not every operation fails before `connect()`. -/
theorem sqlite3CommitBeforeConnectSucceeds :
    Sqlite3.runOp ContractOp.commit Sqlite3.initialState = .ok Sqlite3.initialState := rfl

/-- C3 amended: before `connect()`, every operation of the pooled and
document adapters fails, and every operation of the embedded adapter fails
except `commit()` and `rollback()`, which silently no-op; the failures are
not a dedicated LifecycleError type: the SQL adapters die with a TypeError on
the null driver handle, the MongoDB collection operations throw "Database not
connected" (its transaction stubs throw their own message regardless of
state). -/
theorem disconnectedOperationOutcomes :
    (∀ (op : ContractOp), isErr (Sqlite3.runOp op Sqlite3.initialState) =
        decide (op ≠ ContractOp.commit ∧ op ≠ ContractOp.rollback)) ∧
    (∀ (op : ContractOp), isErr (MySQL.runOp op MySQL.initialState) = true) ∧
    (∀ (op : ContractOp), isErr (Postgres.runOp op Postgres.initialState) = true) ∧
    (∀ (op : ContractOp), isErr (Mongo.runOp op Mongo.initialState) = true) ∧
    Sqlite3.runOp ContractOp.insert Sqlite3.initialState = .error (.nullCall "prepare") ∧
    MySQL.runOp ContractOp.insert MySQL.initialState = .error (.nullCall "execute") ∧
    Postgres.runOp ContractOp.insert Postgres.initialState = .error (.nullCall "query") ∧
    Mongo.runOp ContractOp.insert Mongo.initialState =
      .error (.thrown "Database not connected") := by
  refine ⟨?_, ?_, ?_, ?_, rfl, rfl, rfl, rfl⟩ <;> intro op <;> cases op <;> rfl

/-- C4 counterexample: on the MongoDB adapter, `update` with a criteria
mapping matching two documents modifies only the first (`updateOne`) and
reports `modifiedCount = 1`, although the second document also satisfies the
predicate — not all matching rows are affected. -/
theorem mongoUpdateAffectsOnlyFirstMatch :
    Mongo.updateExec [[("a", JVal.int 1)], [("a", JVal.int 1)]]
        (.obj [("a", JVal.int 1)]) [("b", JVal.int 2)] =
      ([[("a", JVal.int 1), ("b", JVal.int 2)], [("a", JVal.int 1)]], 1) ∧
    matchesRow [("a", JVal.int 1)] [("a", JVal.int 1)] = true := by
  exact ⟨rfl, rfl⟩

/-- C4 amended: the pooled relational adapters' `update`/`delete` affect every
row satisfying the criteria (the generated statements carry no LIMIT): update
rewrites exactly the matching rows, delete leaves no matching row and reports
the full match count; the MongoDB adapter uses `updateOne`/`deleteOne` and
affects at most one (the first) matching document. (The embedded adapter's
`update`/`delete` accept only an id, not a criteria mapping.) -/
theorem updateDeleteScopePerAdapter :
    (∀ (tbl : List Row) (c : Criteria) (u : Row),
      (Postgres.updateExec tbl (.obj c) u).1 =
        tbl.map (fun r => if matchesRow c r then applySet u r else r)) ∧
    (∀ (tbl : List Row) (c : Criteria) (u : Row),
      (Postgres.updateExec tbl (.obj c) u).2.length = tbl.countP (matchesRow c)) ∧
    (∀ (tbl : List Row) (c : Criteria),
      (Postgres.deleteExec tbl (.obj c)).1.countP (matchesRow c) = 0) ∧
    (∀ (tbl : List Row) (c : Criteria),
      (Postgres.deleteExec tbl (.obj c)).2 = tbl.countP (matchesRow c)) ∧
    (∀ (tbl : List Row) (c : Criteria) (u : Row),
      (MySQL.updateExec tbl (.obj c) u).1 =
        tbl.map (fun r => if matchesRow c r then applySet u r else r)) ∧
    (∀ (tbl : List Row) (c : Criteria),
      (MySQL.deleteExec tbl (.obj c)).1.countP (matchesRow c) = 0) ∧
    (∀ (tbl : List Row) (c : Criteria),
      (MySQL.deleteExec tbl (.obj c)).2 = tbl.countP (matchesRow c)) ∧
    (∀ (docs : List Row) (arg : JSArg) (u : Row),
      (Mongo.updateExec docs arg u).2 ≤ 1) ∧
    (∀ (docs : List Row) (arg : JSArg), (Mongo.deleteExec docs arg).2 ≤ 1) := by
  refine ⟨fun _ _ _ => rfl, ?_, ?_, fun _ _ => rfl, fun _ _ _ => rfl, ?_, fun _ _ => rfl,
    fun docs arg u => updateFirst_count_le_one _ u docs,
    fun docs arg => deleteFirst_count_le_one _ docs⟩
  · intro tbl c u
    simp only [Postgres.updateExec, sqlUpdateWhere, List.length_map,
      List.countP_eq_length_filter]
    rfl
  · intro tbl c
    exact countP_filter_not (matchesRow c) tbl
  · intro tbl c
    exact countP_filter_not (matchesRow c) tbl

/-- C5 counterexample: the Postgres adapter's `update` returns `res.rows` —
the array the RETURNING clause produced — not an affected-row count: on a
zero-match criteria it returns the empty array, which is not an integer. -/
theorem pgUpdateReturnsRowsNotCount :
    Postgres.updateResult [] (.obj [("email", JVal.str "a")]) [("name", JVal.str "Ann")] =
      .rows [] ∧
    (Postgres.updateResult []
        (.obj [("email", JVal.str "a")]) [("name", JVal.str "Ann")]).isCount = false := by
  exact ⟨rfl, rfl⟩

/-- C5 amended: MySQL's `update`/`delete`, Postgres's `delete` and MongoDB's
`update`/`delete` return the affected-row count and return 0 (not an error)
when nothing matches; Postgres's `update` instead returns the array of
updated rows (empty on zero matches), and the embedded SQLite adapter's
`update`/`delete` return the driver's run-info object whose `changes` field
carries the count — also 0, not an error, on zero matches. -/
theorem writeResultShapesPerAdapter :
    (∀ (tbl : List Row) (arg : JSArg) (u : Row),
      MySQL.updateResult tbl arg u = .count (tbl.countP (MySQL.wherePred arg))) ∧
    (∀ (arg : JSArg) (u : Row), MySQL.updateResult [] arg u = .count 0) ∧
    (∀ (tbl : List Row) (arg : JSArg),
      MySQL.deleteResult tbl arg = .count (tbl.countP (MySQL.wherePred arg))) ∧
    (∀ (arg : JSArg), MySQL.deleteResult [] arg = .count 0) ∧
    (∀ (tbl : List Row) (arg : JSArg),
      Postgres.deleteResult tbl arg = .count (tbl.countP (Postgres.wherePred arg))) ∧
    (∀ (arg : JSArg), Postgres.deleteResult [] arg = .count 0) ∧
    (∀ (docs : List Row) (arg : JSArg) (u : Row),
      (Mongo.updateResult docs arg u).isCount = true) ∧
    (∀ (arg : JSArg) (u : Row), Mongo.updateResult [] arg u = .count 0) ∧
    (∀ (arg : JSArg), Mongo.deleteResult [] arg = .count 0) ∧
    (∀ (tbl : List Row) (arg : JSArg) (u : Row),
      (Postgres.updateResult tbl arg u).isCount = false) ∧
    (∀ (arg : JSArg) (u : Row), Postgres.updateResult [] arg u = .rows []) ∧
    (∀ (tbl : List Row) (id : JVal) (u : Row),
      Sqlite3.updateResult tbl id u =
        .runInfo ((tbl.filter (matchesRow [("id", id)])).length)) ∧
    (∀ (tbl : List Row) (id : JVal) (u : Row),
      (Sqlite3.updateResult tbl id u).isCount = false) ∧
    (∀ (id : JVal) (u : Row), Sqlite3.updateResult [] id u = .runInfo 0) ∧
    (∀ (id : JVal), Sqlite3.deleteResult [] id = .runInfo 0) := by
  refine ⟨?_, fun _ _ => rfl, fun _ _ => rfl, fun _ => rfl, fun _ _ => rfl, fun _ => rfl,
    fun _ _ _ => rfl, fun _ _ => rfl, fun _ => rfl, fun _ _ _ => rfl, fun _ _ => rfl,
    ?_, fun _ _ _ => rfl, fun _ _ => rfl, fun _ => rfl⟩
  · intro tbl arg u
    simp [MySQL.updateResult, MySQL.updateExec, sqlUpdateWhere,
      List.countP_eq_length_filter]
  · intro tbl id u
    simp [Sqlite3.updateResult, sqlUpdateWhere]

/-- C6 counterexample: the embedded SQLite adapter never inspects the shape of
`idOrCriteria`: given a criteria mapping it still generates
`UPDATE users SET name = ? WHERE id = ?`, binding the mapping itself as the
id parameter, instead of AND-combining the mapping into the WHERE clause. -/
theorem sqlite3CriteriaMappingNotResolved :
    Sqlite3.updateSql "users" (.obj [("email", JVal.str "a@b.com")])
        [("name", JVal.str "Ann")] =
      ("UPDATE users SET name = ? WHERE id = ?",
       [JSArg.scalar (JVal.str "Ann"), JSArg.obj [("email", JVal.str "a@b.com")]]) ∧
    (Sqlite3.updateSql "users" (.obj [("email", JVal.str "a@b.com")])
        [("name", JVal.str "Ann")]).1 ≠
      "UPDATE users SET name = ? WHERE email = ?" := by
  constructor
  · rfl
  · decide

/-- C6 amended: the pooled relational adapters resolve `idOrCriteria` by its
shape — a scalar becomes an equality on the primary-key column `id`, a
mapping is AND-combined, one equality predicate per key, with Postgres's
numbered placeholders continuing after the SET parameters and MySQL's `?`
placeholders and backtick quoting (except that MySQL's `delete` leaves the
scalar-path id column unquoted); the embedded SQLite adapter never dispatches
on the shape and always emits `WHERE id = ?`. -/
theorem idOrCriteriaResolutionPerAdapter :
    (∀ (n : Nat) (arg : JSArg),
      Postgres.updateFilter n arg = specResolveIdOrCriteria pgClause n arg) ∧
    (∀ (arg : JSArg),
      Postgres.deleteFilter arg = specResolveIdOrCriteria pgClause 0 arg) ∧
    (∀ (arg : JSArg),
      MySQL.updateFilter arg = specResolveIdOrCriteria mysqlClause 0 arg) ∧
    (∀ (c : List (String × JVal)),
      MySQL.deleteFilter (.obj c) = specResolveIdOrCriteria mysqlClause 0 (.obj c)) ∧
    (∀ (v : JVal), MySQL.deleteFilter (.scalar v) = ("WHERE id = ?", [v])) ∧
    (∀ (t : String) (arg arg' : JSArg) (u : Row),
      (Sqlite3.updateSql t arg u).1 = (Sqlite3.updateSql t arg' u).1) ∧
    (∀ (t : String) (arg : JSArg),
      Sqlite3.deleteSql t arg = ("DELETE FROM " ++ t ++ " WHERE id = ?", [arg])) := by
  refine ⟨?_, ?_, ?_, ?_, fun _ => rfl, fun _ _ _ _ => rfl, fun _ _ => rfl⟩
  · intro n arg
    cases arg with
    | scalar v =>
        simp [Postgres.updateFilter, specResolveIdOrCriteria, pgClause,
          ← String.append_assoc]
    | obj c =>
        simp [Postgres.updateFilter, specResolveIdOrCriteria,
          whereLoop_eq_spec c n]
  · intro arg
    cases arg with
    | scalar v =>
        show ("WHERE id = $1", [v]) = ("WHERE " ++ pgClause "id" 0, [v])
        rfl
    | obj c =>
        simp [Postgres.deleteFilter, specResolveIdOrCriteria,
          whereLoop_eq_spec c 0]
  · intro arg
    cases arg with
    | scalar v =>
        simp [MySQL.updateFilter, specResolveIdOrCriteria, mysqlClause,
          ← String.append_assoc]
    | obj c =>
        simp [MySQL.updateFilter, specResolveIdOrCriteria, specAndClauses_mysql]
  · intro c
    simp [MySQL.deleteFilter, specResolveIdOrCriteria, specAndClauses_mysql]

end Daytona
